import Mathlib

/-!
Shallow embedding of the credential-management and data-aggregation core of
the youtube-overlay-server repository (TypeScript sources:
`src/utils/twitchApi.ts` = `src/unnamed/part_001`,
`src/middlewares/twitchTokenMiddleware.ts`, `src/index.ts`,
`src/interfaces/errors.ts`, `src/interfaces/streamer.ts`).

Network I/O is modelled by oracles: each upstream HTTP call is represented by
an `UpstreamResponse` value (status line plus the parsed JSON body) supplied
as an argument, so every source function becomes a pure Lean function of its
inputs and of the upstream's behaviour.  JS `number` counts are modelled as
`Nat`, timestamps (`Date.now()`) as `Int` milliseconds, and thrown
`HTTPException`s as the `ApiError.http` constructor of an `Except` error type
(`ApiError.typeError` models a JS `TypeError` thrown by a property access on
`undefined`).
-/

/-- Result of a `fetch` call: HTTP status, status text, and the payload the
body parses to (read only on the ok path). -/
structure UpstreamResponse (α : Type) where
  status : Nat
  statusText : String
  body : α
deriving Repr

/-- The WHATWG fetch `Response.ok` flag: status in the range 200–299. -/
def respOk {α : Type} (r : UpstreamResponse α) : Bool :=
  decide (200 ≤ r.status) && decide (r.status < 300)

/-- Errors thrown by the code: `http s m` is `new HTTPException(s, {message: m})`
(`src/interfaces/errors.ts` builds `NotFoundError` as `HTTPException(404, …)`);
`typeError m` is a JS `TypeError` from reading a property of `undefined`. -/
inductive ApiError where
  | http (status : Nat) (message : String)
  | typeError (message : String)
deriving DecidableEq, Repr

/-- The `Streamer` interface of `src/interfaces/streamer.ts`, the unified
output record. -/
structure Streamer where
  channelId : String
  displayName : String
  loginName : String
  profileImageUrl : String
  title : String
  gameName : String
  viewers : Nat
  isLive : Bool
deriving DecidableEq, Repr

/-- `UserData` as declared in `twitchApi.ts`. -/
structure UserData where
  id : String
  login : String
  display_name : String
  type : String
  broadcaster_type : String
  description : String
  profile_image_url : String
  offline_image_url : String
  view_count : Nat
  created_at : String
deriving DecidableEq, Repr

/-- `StreamData` as declared in `twitchApi.ts`. -/
structure StreamData where
  id : String
  user_id : String
  user_login : String
  user_name : String
  game_id : String
  game_name : String
  type : String
  title : String
  tags : List String
  viewer_count : Nat
  started_at : String
  language : String
  thumbnail_url : String
  is_mature : Bool
deriving DecidableEq, Repr

/-- `ChannelData` as declared in `twitchApi.ts`. -/
structure ChannelData where
  broadcaster_id : String
  broadcaster_login : String
  broadcaster_name : String
  broadcaster_language : String
  game_id : String
  game_name : String
  title : String
  delay : Nat
  tags : List String
  content_classification_labels : List String
  is_branded_content : Bool
deriving DecidableEq, Repr

/-- `SearchData` as declared in `twitchApi.ts`. -/
structure SearchData where
  broadcaster_language : String
  broadcaster_login : String
  display_name : String
  game_id : String
  game_name : String
  id : String
  is_live : Bool
  tags : List String
  thumbnail_url : String
  title : String
  started_at : String
deriving DecidableEq, Repr

/-- `FollowedStreamsData` as declared in `twitchApi.ts`. -/
structure FollowedStreamsData where
  user_id : String
  user_login : String
  user_name : String
  game_name : String
  title : String
  type : String
  viewer_count : Nat
deriving DecidableEq, Repr

/-- `TwitchTokenResponse` as declared in `twitchApi.ts` (the user-token
refresh endpoint's payload). -/
structure TwitchTokenResponse where
  access_token : String
  refresh_token : String
  expires_in : Nat
deriving DecidableEq, Repr

/-- JS `x?.f || d` for a numeric field: `undefined` and the falsy value `0`
both fall back to the default. -/
def jsOrNat (x : Option Nat) (d : Nat) : Nat :=
  match x with
  | some v => if v = 0 then d else v
  | none => d

/-- JS `x?.f || d` for a string field: `undefined` and the falsy value `""`
both fall back to the default. -/
def jsOrStr (x : Option String) (d : String) : String :=
  match x with
  | some s => if s = "" then d else s
  | none => d

/-- `fetchUserData` of `twitchApi.ts`: on a non-ok response it throws
`HTTPException(500, …)`; otherwise it returns `data[0]`, which is `undefined`
(`none`) when the upstream returns zero records. -/
def fetchUserData (loginName : String) (resp : UpstreamResponse (List UserData)) :
    Except ApiError (Option UserData) :=
  if respOk resp then
    Except.ok resp.body.head?
  else
    Except.error (ApiError.http 500 ("Failed to fetch User Data for " ++ loginName))

/-- `fetchStreamData` of `twitchApi.ts`: same shape as `fetchUserData`. -/
def fetchStreamData (userId : String) (resp : UpstreamResponse (List StreamData)) :
    Except ApiError (Option StreamData) :=
  if respOk resp then
    Except.ok resp.body.head?
  else
    Except.error (ApiError.http 500 ("Failed to fetch Stream Data for " ++ userId))

/-- `fetchChannelData` of `twitchApi.ts`: same shape as `fetchUserData`. -/
def fetchChannelData (userId : String) (resp : UpstreamResponse (List ChannelData)) :
    Except ApiError (Option ChannelData) :=
  if respOk resp then
    Except.ok resp.body.head?
  else
    Except.error (ApiError.http 500 ("Failed to fetch Channel Data for " ++ userId))

/-- `refreshAccessToken` of `twitchApi.ts`: HTTP 400 throws
`HTTPException(400, 'INVALID_TOKEN')` (the invalid-refresh-token failure),
any other non-ok status throws the generic `HTTPException(500, …)`, and an
ok response yields the parsed token payload. -/
def refreshAccessToken (resp : UpstreamResponse TwitchTokenResponse) :
    Except ApiError TwitchTokenResponse :=
  if !respOk resp then
    if resp.status = 400 then
      Except.error (ApiError.http 400 "INVALID_TOKEN")
    else
      Except.error (ApiError.http 500
        ("Failed to refresh Access Token: " ++ toString resp.status ++ " " ++ resp.statusText))
  else
    Except.ok resp.body

namespace Middleware

/-- `TwitchTokenResponse` as declared in `twitchTokenMiddleware.ts` (the
app-credential endpoint's payload — a different shape from the user-token
one in `twitchApi.ts`). -/
structure TokenResponse where
  access_token : String
  expires_in : Nat
  token_type : String
deriving DecidableEq, Repr

/-- `MAX_CACHE_DURATION = 24 * 60 * 60 * 1000` (24 hours in ms). -/
def MAX_CACHE_DURATION : Int := 24 * 60 * 60 * 1000

/-- `EXPIRY_BUFFER = 60 * 1000` (60 seconds in ms). -/
def EXPIRY_BUFFER : Int := 60 * 1000

/-- The two module-level mutable variables of `twitchTokenMiddleware.ts`:
`cachedToken` and `tokenExpiryTime`. -/
structure CacheState where
  cachedToken : Option TokenResponse
  tokenExpiryTime : Option Int
deriving DecidableEq, Repr

/-- The initial module state: both variables are `null`. -/
def initialCache : CacheState := ⟨none, none⟩

/-- The guard `cachedToken && tokenExpiryTime && currentTime < tokenExpiryTime
- EXPIRY_BUFFER`.  A stored `tokenExpiryTime` of `0` is falsy in JS, hence the
explicit `exp ≠ 0` conjunct. -/
def cacheHit (s : CacheState) (currentTime : Int) : Bool :=
  match s.cachedToken, s.tokenExpiryTime with
  | some _, some exp => decide (exp ≠ 0) && decide (currentTime < exp - EXPIRY_BUFFER)
  | _, _ => false

/-- Storing a fresh token: `expiresInMs = min(expires_in*1000,
MAX_CACHE_DURATION)`; `tokenExpiryTime = Date.now() + expiresInMs -
EXPIRY_BUFFER` where `t1` is the value of that second `Date.now()` call. -/
def storeToken (data : TokenResponse) (t1 : Int) : CacheState :=
  ⟨some data, some (t1 + min ((data.expires_in : Int) * 1000) MAX_CACHE_DURATION - EXPIRY_BUFFER)⟩

/-- What one middleware invocation hands to the request context and whether it
issued an upstream token request. -/
structure MwOutcome where
  ctxToken : Option TokenResponse
  refreshIssued : Bool
  error : Option ApiError
deriving DecidableEq, Repr

/-- One sequential invocation of `twitchTokenMiddleware`: `t0` is `Date.now()`
at entry, `t1` is `Date.now()` after the token response is parsed, `resp` is
the upstream response consumed only when a refresh is issued.  On a cache hit
the cached token is handed out and the state is untouched; on a miss the
upstream is called, and a non-ok response throws before any assignment. -/
def middlewareCall (s : CacheState) (t0 t1 : Int) (resp : UpstreamResponse TokenResponse) :
    CacheState × MwOutcome :=
  if cacheHit s t0 then
    (s, ⟨s.cachedToken, false, none⟩)
  else if respOk resp then
    (storeToken resp.body t1, ⟨some resp.body, true, none⟩)
  else
    (s, ⟨none, true, some (ApiError.http 500 ("Failed to fetch Twitch token: " ++ resp.statusText))⟩)

/-- Progress of one request through the middleware body: `idle` before the
synchronous cache check, `fetching` while its `fetch` of the token endpoint
is in flight, `done` after its response was processed (or after a cache
hit). -/
inductive Pc where
  | idle
  | fetching
  | done
deriving DecidableEq, Repr

/-- Global state of two concurrent requests sharing the module-level cache:
the cache, each request's program counter, and the number of upstream token
requests issued so far. -/
structure Sys where
  cache : CacheState
  pc1 : Pc
  pc2 : Pc
  refreshes : Nat
deriving DecidableEq, Repr

/-- A scheduling event of the JS event loop.  `check i t` runs request `i`'s
synchronous segment (the cache check and, on a miss, issuing the `fetch`) at
time `t`; `complete i t1 resp` resumes request `i` when its fetch resolves
with `resp` at time `t1`.  Between `check` and `complete` the request is
suspended at the `await`, letting the other request interleave — exactly the
single-threaded event-loop semantics of the source. -/
inductive Act where
  | check (i : Bool) (t : Int)
  | complete (i : Bool) (t1 : Int) (resp : UpstreamResponse TokenResponse)

/-- Read request `i`'s program counter. -/
def Sys.pc (s : Sys) (i : Bool) : Pc := if i then s.pc1 else s.pc2

/-- Write request `i`'s program counter. -/
def Sys.setPc (s : Sys) (i : Bool) (p : Pc) : Sys :=
  if i then { s with pc1 := p } else { s with pc2 := p }

/-- One scheduler step; an event whose precondition does not hold (wrong
program counter) is a no-op. -/
def stepAct (s : Sys) (a : Act) : Sys :=
  match a with
  | Act.check i t =>
    if s.pc i = Pc.idle then
      if cacheHit s.cache t then
        s.setPc i Pc.done
      else
        { s.setPc i Pc.fetching with refreshes := s.refreshes + 1 }
    else s
  | Act.complete i t1 resp =>
    if s.pc i = Pc.fetching then
      if respOk resp then
        { s.setPc i Pc.done with cache := storeToken resp.body t1 }
      else
        s.setPc i Pc.done
    else s

/-- Run a schedule, returning every intermediate state (the initial one
first). -/
def runActs (s : Sys) : List Act → List Sys
  | [] => [s]
  | a :: rest => s :: runActs (stepAct s a) rest

/-- Both requests have an upstream token request in flight simultaneously. -/
def bothInFlight (s : Sys) : Bool :=
  decide (s.pc1 = Pc.fetching) && decide (s.pc2 = Pc.fetching)

end Middleware

/-- The descending-viewers order used by `streamers.sort((a, b) => b.viewers -
a.viewers)`: `a` may come before `b` exactly when `b.viewers ≤ a.viewers`. -/
def viewersGe (a b : Streamer) : Prop := b.viewers ≤ a.viewers

instance : DecidableRel viewersGe := fun a b => Nat.decLe b.viewers a.viewers

instance : IsTotal Streamer viewersGe := ⟨fun a b => Nat.le_total b.viewers a.viewers⟩

instance : IsTrans Streamer viewersGe :=
  ⟨fun _ _ _ hab hbc => Nat.le_trans hbc hab⟩

/-- `searchStreams` of `twitchApi.ts`: a non-ok search response throws the
generic 500; otherwise every search result is joined with its own
`fetchStreamData` call (`Promise.all` — all must succeed), `viewers` and
`title` default through JS `||`, and the list is sorted by descending
`viewers`.  `streamOracle` maps a channel id to the upstream's response for
that id's stream lookup. -/
def searchJoin (streamOracle : String → UpstreamResponse (List StreamData))
    (stream : SearchData) : Except ApiError Streamer := do
  let streamData ← fetchStreamData stream.id (streamOracle stream.id)
  pure { channelId := stream.id
         loginName := stream.broadcaster_login
         displayName := stream.display_name
         profileImageUrl := stream.thumbnail_url
         gameName := stream.game_name
         viewers := jsOrNat (streamData.map (fun sd => sd.viewer_count)) 0
         isLive := stream.is_live
         title := jsOrStr (streamData.map (fun sd => sd.title)) "" }

/-- The rest of `searchStreams`: the guard on the search response, the
`Promise.all` fan-out via `searchJoin`, and the final descending sort. -/
def searchStreams (searchResp : UpstreamResponse (List SearchData))
    (streamOracle : String → UpstreamResponse (List StreamData)) :
    Except ApiError (List Streamer) :=
  if !respOk searchResp then
    Except.error (ApiError.http 500 "Failed to fetch Streams")
  else do
    let streamers ← searchResp.body.mapM (searchJoin streamOracle)
    pure (streamers.insertionSort viewersGe)

/-- Which upstream endpoints the `/channels/:name` handler consulted, in
order. -/
inductive ChanEv where
  | userFetch
  | streamFetch
  | channelFetch
deriving DecidableEq, Repr

/-- The `/channels/:name` handler of `src/index.ts` (its aggregation logic,
after the middleware supplied an app token): fetch the user by login — absent
throws `NotFoundError('Channel not found')`; fetch the stream by user id — if
present build the Streamer from user+stream with `isLive = type === 'live'`;
otherwise fetch channel metadata — absent throws `NotFoundError`, present
builds the Streamer with `viewers = 0`, `isLive = false`.  Returns the result
together with the list of endpoints consulted. -/
def getChannel (name : String) (userResp : UpstreamResponse (List UserData))
    (streamResp : UpstreamResponse (List StreamData))
    (channelResp : UpstreamResponse (List ChannelData)) :
    Except ApiError Streamer × List ChanEv :=
  match fetchUserData name userResp with
  | Except.error e => (Except.error e, [ChanEv.userFetch])
  | Except.ok none => (Except.error (ApiError.http 404 "Channel not found"), [ChanEv.userFetch])
  | Except.ok (some userData) =>
    match fetchStreamData userData.id streamResp with
    | Except.error e => (Except.error e, [ChanEv.userFetch, ChanEv.streamFetch])
    | Except.ok (some streamData) =>
      (Except.ok { channelId := userData.id
                   displayName := userData.display_name
                   loginName := userData.login
                   profileImageUrl := userData.profile_image_url
                   gameName := streamData.game_name
                   viewers := streamData.viewer_count
                   isLive := streamData.type == "live"
                   title := streamData.title },
       [ChanEv.userFetch, ChanEv.streamFetch])
    | Except.ok none =>
      match fetchChannelData userData.id channelResp with
      | Except.error e =>
        (Except.error e, [ChanEv.userFetch, ChanEv.streamFetch, ChanEv.channelFetch])
      | Except.ok none =>
        (Except.error (ApiError.http 404 "Channel not found"),
         [ChanEv.userFetch, ChanEv.streamFetch, ChanEv.channelFetch])
      | Except.ok (some channelData) =>
        (Except.ok { channelId := userData.id
                     displayName := userData.display_name
                     loginName := userData.login
                     profileImageUrl := userData.profile_image_url
                     gameName := channelData.game_name
                     title := channelData.title
                     viewers := 0
                     isLive := false },
         [ChanEv.userFetch, ChanEv.streamFetch, ChanEv.channelFetch])

/-- A row of the prisma `account` table, restricted to the columns the core
reads and writes. -/
structure StoredAccount where
  id : String
  accountId : String
  providerId : String
  accessToken : Option String
  refreshToken : Option String
  accessTokenExpiresAt : Option Int
deriving DecidableEq, Repr

/-- `prisma.account.findFirst({where: {accountId, providerId: 'twitch'}})`. -/
def findTwitchAccount (store : List StoredAccount) (accountId : String) :
    Option StoredAccount :=
  store.find? (fun a => a.accountId == accountId && a.providerId == "twitch")

/-- `prisma.account.update({where: {id}, data: {accessToken, refreshToken,
accessTokenExpiresAt}})`: one update call writes all three columns of the row
with the given `id` together. -/
def updateAccount (store : List StoredAccount) (id : String)
    (twitchData : TwitchTokenResponse) (now : Int) : List StoredAccount :=
  store.map (fun a =>
    if a.id == id then
      { a with accessToken := some twitchData.access_token
               refreshToken := some twitchData.refresh_token
               accessTokenExpiresAt := some (now + (twitchData.expires_in : Int) * 1000) }
    else a)

/-- The `Promise.all` fan-out at the end of `fetchFollowedStreams`: every
followed stream is joined with its `fetchUserData` lookup (for the profile
image).  The source reads `userData.profile_image_url` without checking for
`undefined`, so an ok user response with zero records raises a JS
`TypeError`. -/
def followedFanOut (streams : List FollowedStreamsData)
    (userOracle : String → UpstreamResponse (List UserData)) :
    Except ApiError (List Streamer) :=
  streams.mapM (fun stream =>
    match fetchUserData stream.user_login (userOracle stream.user_login) with
    | Except.error e => Except.error e
    | Except.ok none =>
      Except.error (ApiError.typeError
        "Cannot read properties of undefined (reading profile_image_url)")
    | Except.ok (some userData) =>
      Except.ok { channelId := stream.user_id
                  displayName := stream.user_name
                  loginName := stream.user_login
                  profileImageUrl := userData.profile_image_url
                  gameName := stream.game_name
                  viewers := stream.viewer_count
                  isLive := true
                  title := stream.title })

/-- Observable events of one `fetchFollowedStreams` run: an `attempt tok`
each time the followed-streams endpoint is called with token `tok`, a
`refreshCall rt` when `refreshAccessToken(rt)` is invoked, a `refreshOk resp`
when it returns, and a `storeUpdate id a r e` for the single prisma update
writing access token `a`, refresh token `r` and expiry `e` to row `id`. -/
inductive Ev where
  | attempt (token : String)
  | refreshCall (refreshToken : String)
  | refreshOk (resp : TwitchTokenResponse)
  | storeUpdate (id : String) (accessToken : String) (refreshToken : String) (expiresAt : Int)
deriving DecidableEq, Repr

/-- Outcome of a `fetchFollowedStreams` run over a finite trace of upstream
responses: a returned Streamer list, a thrown error, or `outOfRounds` when
the recursion demands yet another followed-streams response beyond the ones
the trace provides (evidence of a deeper recursive retry). -/
inductive RunResult where
  | success (streamers : List Streamer)
  | failure (e : ApiError)
  | outOfRounds
deriving DecidableEq, Repr

/-- Upstream behaviour for one attempt of the followed-streams call: the
response of the `/streams/followed` request, and the response the token
endpoint would give if this attempt triggers a refresh. -/
structure Round where
  followedResp : UpstreamResponse (List FollowedStreamsData)
  refreshResp : UpstreamResponse TwitchTokenResponse

/-- `fetchFollowedStreams` of `twitchApi.ts`.  On a non-ok response with
status 401 it looks up the stored twitch account (absent or empty refresh
token throws the 500 'Invalid access token, no refresh token found'), calls
`refreshAccessToken`, persists the new pair via one `prisma.account.update`,
and RECURSES with the new access token; any other non-ok status throws the
generic 500.  An ok response fans out to `fetchUserData` per stream.  Each
list element of `rounds` supplies the upstream responses for one attempt;
the run returns the result, the event trace, and the final account store. -/
def fetchFollowedStreamsRun (userOracle : String → UpstreamResponse (List UserData))
    (now : Int) (accountId : String) :
    List StoredAccount → String → List Round → RunResult × List Ev × List StoredAccount
  | store, userAccessToken, [] => (RunResult.outOfRounds, [Ev.attempt userAccessToken], store)
  | store, userAccessToken, round :: rest =>
    if respOk round.followedResp then
      match followedFanOut round.followedResp.body userOracle with
      | Except.ok streamers =>
        (RunResult.success streamers, [Ev.attempt userAccessToken], store)
      | Except.error e => (RunResult.failure e, [Ev.attempt userAccessToken], store)
    else if round.followedResp.status = 401 then
      match findTwitchAccount store accountId with
      | none =>
        (RunResult.failure (ApiError.http 500 "Invalid access token, no refresh token found"),
         [Ev.attempt userAccessToken], store)
      | some account =>
        match account.refreshToken with
        | none =>
          (RunResult.failure (ApiError.http 500 "Invalid access token, no refresh token found"),
           [Ev.attempt userAccessToken], store)
        | some rt =>
          if rt = "" then
            (RunResult.failure (ApiError.http 500 "Invalid access token, no refresh token found"),
             [Ev.attempt userAccessToken], store)
          else
            match refreshAccessToken round.refreshResp with
            | Except.error e =>
              (RunResult.failure e, [Ev.attempt userAccessToken, Ev.refreshCall rt], store)
            | Except.ok twitchData =>
              let store1 := updateAccount store account.id twitchData now
              let next := fetchFollowedStreamsRun userOracle now accountId store1
                twitchData.access_token rest
              (next.1,
               Ev.attempt userAccessToken :: Ev.refreshCall rt :: Ev.refreshOk twitchData ::
                 Ev.storeUpdate account.id twitchData.access_token twitchData.refresh_token
                   (now + (twitchData.expires_in : Int) * 1000) :: next.2.1,
               next.2.2)
    else
      (RunResult.failure (ApiError.http 500
        ("Failed to fetch Followed Channels for " ++ accountId ++ ": " ++
          toString round.followedResp.status ++ " " ++ round.followedResp.statusText)),
       [Ev.attempt userAccessToken], store)

/-- Number of refresh calls in a trace. -/
def refreshCount (evs : List Ev) : Nat :=
  (evs.filter (fun e => match e with | Ev.refreshCall _ => true | _ => false)).length

/-- Number of followed-streams attempts in a trace. -/
def attemptCount (evs : List Ev) : Nat :=
  (evs.filter (fun e => match e with | Ev.attempt _ => true | _ => false)).length

/-- Every successful refresh in the trace is immediately followed by the one
store update writing that response's access token, refresh token and expiry
(`now + expires_in * 1000`) together, and then by the retry attempt carrying
that same new access token. -/
def UpdateThenRetry (now : Int) : List Ev → Prop
  | [] => True
  | Ev.refreshOk resp :: rest =>
    match rest with
    | Ev.storeUpdate _ a r e :: Ev.attempt a2 :: rest2 =>
      a = resp.access_token ∧ r = resp.refresh_token ∧
        e = now + (resp.expires_in : Int) * 1000 ∧ a2 = resp.access_token ∧
        UpdateThenRetry now rest2
    | _ => False
  | _ :: rest => UpdateThenRetry now rest

/-- Sample upstream user record used to instantiate the theorems below. -/
def sampleUser : UserData :=
  ⟨"123", "alice", "Alice", "", "partner", "streams chess", "http://img/alice.png",
    "http://img/alice-off.png", 10, "2020-01-01T00:00:00Z"⟩

/-- Sample live stream record (120 viewers, type `live`). -/
def sampleStream : StreamData :=
  ⟨"s1", "123", "alice", "Alice", "g1", "Chess", "live", "Playing chess", [],
    120, "2024-01-01T00:00:00Z", "en", "http://img/thumb.png", false⟩

/-- Sample channel-metadata record for an offline channel. -/
def sampleChannel : ChannelData :=
  ⟨"123", "alice", "Alice", "en", "g1", "Chess", "Chess from yesterday", 0, [], [], false⟩

/-- Sample search results with ids `1`, `2`, `3`. -/
def sampleSearchData : List SearchData :=
  [⟨"en", "alice", "Alice", "g1", "Chess", "1", true, [], "http://t/1", "a", "2024-01-01"⟩,
   ⟨"en", "bob", "Bob", "g2", "Poker", "2", true, [], "http://t/2", "b", "2024-01-01"⟩,
   ⟨"en", "carol", "Carol", "g3", "Go", "3", true, [], "http://t/3", "c", "2024-01-01"⟩]

/-- A stream record with the given id and viewer count. -/
def mkSampleStream (id : String) (viewers : Nat) : StreamData :=
  ⟨id, id, "login" ++ id, "Name" ++ id, "g", "Game", "live", "title" ++ id, [],
    viewers, "2024-01-01", "en", "http://t", false⟩

/-- Stream-lookup oracle giving the search results viewers 5, 50 and 0
(the third id has no active stream, so its viewers default to 0). -/
def sampleStreamOracle : String → UpstreamResponse (List StreamData) :=
  fun id =>
    if id = "1" then ⟨200, "OK", [mkSampleStream "1" 5]⟩
    else if id = "2" then ⟨200, "OK", [mkSampleStream "2" 50]⟩
    else ⟨200, "OK", []⟩

/-- Sample stored twitch account row. -/
def sampleAccount : StoredAccount :=
  ⟨"row1", "acc1", "twitch", some "oldAccess", some "rt0", some 0⟩

/-- Sample token payload returned by the first user-token refresh. -/
def sampleTok1 : TwitchTokenResponse := ⟨"newA1", "newR1", 3600⟩

/-- Sample token payload returned by the second user-token refresh. -/
def sampleTok2 : TwitchTokenResponse := ⟨"newA2", "newR2", 3600⟩

/-- A 401 followed-streams response paired with a successful refresh
response carrying `tok`. -/
def round401 (tok : TwitchTokenResponse) : Round :=
  ⟨⟨401, "Unauthorized", []⟩, ⟨200, "OK", tok⟩⟩

/-- An ok followed-streams response with no streams, paired with an unused
refresh response. -/
def roundOkEmpty : Round := ⟨⟨200, "OK", []⟩, ⟨200, "OK", sampleTok1⟩⟩

/-- User-lookup oracle that answers every login with one sample profile. -/
def sampleUserOracle : String → UpstreamResponse (List UserData) :=
  fun _ => ⟨200, "OK", [sampleUser]⟩

/-- Sample followed-stream record for the given login. -/
def mkFollowed (login : String) : FollowedStreamsData :=
  ⟨"u-" ++ login, login, "N-" ++ login, "Chess", "t-" ++ login, "live", 7⟩

/-- User-lookup oracle whose answer for login `bob` is a 502 failure and is
ok with one record for every other login. -/
def failBobUserOracle : String → UpstreamResponse (List UserData) :=
  fun login =>
    if login = "bob" then ⟨502, "Bad Gateway", []⟩ else ⟨200, "OK", [sampleUser]⟩

/-- Stream-lookup oracle whose answer for id `2` is a 502 failure and is ok
with one record for every other id. -/
def failTwoStreamOracle : String → UpstreamResponse (List StreamData) :=
  fun id =>
    if id = "2" then ⟨502, "Bad Gateway", []⟩ else ⟨200, "OK", [mkSampleStream id 9]⟩

/-- Sample app-credential payload for the middleware. -/
def sampleMwToken : Middleware.TokenResponse := ⟨"appTok", 3600, "bearer"⟩

/-- An ok token-endpoint response carrying `sampleMwToken`. -/
def sampleMwResp : UpstreamResponse Middleware.TokenResponse := ⟨200, "OK", sampleMwToken⟩

/-- Helper: after the one prisma update of the found row, looking the account
up again finds the same row with the three refreshed columns. -/
theorem findTwitchAccount_updateAccount (store : List StoredAccount) (accountId : String)
    (account : StoredAccount) (td : TwitchTokenResponse) (now : Int)
    (h : findTwitchAccount store accountId = some account) :
    findTwitchAccount (updateAccount store account.id td now) accountId =
      some { account with
             accessToken := some td.access_token
             refreshToken := some td.refresh_token
             accessTokenExpiresAt := some (now + (td.expires_in : Int) * 1000) } := by
  unfold findTwitchAccount updateAccount
  unfold findTwitchAccount at h
  rw [List.find?_map]
  have hp : ((fun a => a.accountId == accountId && a.providerId == "twitch") ∘
      (fun a : StoredAccount =>
        if a.id == account.id then
          { a with accessToken := some td.access_token
                   refreshToken := some td.refresh_token
                   accessTokenExpiresAt := some (now + (td.expires_in : Int) * 1000) }
        else a)) =
      (fun a : StoredAccount => a.accountId == accountId && a.providerId == "twitch") := by
    funext a
    by_cases hid : a.id = account.id <;> simp [hid]
  rw [hp, h]
  simp

/-- C9: the user-token refresh maps an upstream HTTP 400 to the
InvalidRefreshToken failure (`HTTPException(400, 'INVALID_TOKEN')`) and any
other non-success response to the generic `HTTPException(500, …)`; a 400 is
never mapped to the generic error. -/
theorem refreshAccessToken_status_mapping (resp : UpstreamResponse TwitchTokenResponse) :
    (resp.status = 400 →
      refreshAccessToken resp = Except.error (ApiError.http 400 "INVALID_TOKEN")) ∧
    (respOk resp = false → resp.status ≠ 400 →
      refreshAccessToken resp = Except.error (ApiError.http 500
        ("Failed to refresh Access Token: " ++ toString resp.status ++ " " ++ resp.statusText))) := by
  constructor
  · intro h
    simp [refreshAccessToken, respOk, h]
  · intro hok h400
    simp [refreshAccessToken, hok, h400]

/-- Witness for C9 at two concrete responses: a 400 yields INVALID_TOKEN and
a 503 yields the generic 500. -/
theorem refreshAccessToken_status_mapping_witness :
    refreshAccessToken ⟨400, "Bad Request", sampleTok1⟩ =
      Except.error (ApiError.http 400 "INVALID_TOKEN") ∧
    refreshAccessToken ⟨503, "Service Unavailable", sampleTok1⟩ =
      Except.error (ApiError.http 500 "Failed to refresh Access Token: 503 Service Unavailable") := by
  constructor
  · exact (refreshAccessToken_status_mapping ⟨400, "Bad Request", sampleTok1⟩).1 rfl
  · exact (refreshAccessToken_status_mapping ⟨503, "Service Unavailable", sampleTok1⟩).2 rfl (by decide)

/-- C5: when the user lookup and the stream lookup both return a record, the
Streamer is built from user and stream data (`viewers` = the stream's viewer
count, `isLive` = whether the stream type is `live`, `title` and `gameName`
from the stream), and the channel-metadata endpoint is not consulted. -/
theorem getChannel_stream_priority (name : String)
    (userResp : UpstreamResponse (List UserData))
    (streamResp : UpstreamResponse (List StreamData))
    (channelResp : UpstreamResponse (List ChannelData))
    (u : UserData) (us : List UserData) (s : StreamData) (ss : List StreamData)
    (hu : respOk userResp = true) (hub : userResp.body = u :: us)
    (hs : respOk streamResp = true) (hsb : streamResp.body = s :: ss) :
    getChannel name userResp streamResp channelResp =
      (Except.ok { channelId := u.id
                   displayName := u.display_name
                   loginName := u.login
                   profileImageUrl := u.profile_image_url
                   title := s.title
                   gameName := s.game_name
                   viewers := s.viewer_count
                   isLive := s.type == "live" },
       [ChanEv.userFetch, ChanEv.streamFetch]) ∧
    ChanEv.channelFetch ∉ (getChannel name userResp streamResp channelResp).2 := by
  have h : getChannel name userResp streamResp channelResp =
      (Except.ok { channelId := u.id
                   displayName := u.display_name
                   loginName := u.login
                   profileImageUrl := u.profile_image_url
                   title := s.title
                   gameName := s.game_name
                   viewers := s.viewer_count
                   isLive := s.type == "live" },
       [ChanEv.userFetch, ChanEv.streamFetch]) := by
    simp [getChannel, fetchUserData, fetchStreamData, hu, hub, hs, hsb]
  refine ⟨h, ?_⟩
  rw [h]
  simp

/-- Witness for C5: a user with an active 120-viewer live stream yields a
Streamer with `viewers = 120`, `isLive = true`. -/
theorem getChannel_stream_priority_witness :
    getChannel "alice" ⟨200, "OK", [sampleUser]⟩ ⟨200, "OK", [sampleStream]⟩
        ⟨200, "OK", [sampleChannel]⟩ =
      (Except.ok { channelId := "123"
                   displayName := "Alice"
                   loginName := "alice"
                   profileImageUrl := "http://img/alice.png"
                   title := "Playing chess"
                   gameName := "Chess"
                   viewers := 120
                   isLive := true },
       [ChanEv.userFetch, ChanEv.streamFetch]) :=
  ((getChannel_stream_priority "alice" ⟨200, "OK", [sampleUser]⟩ ⟨200, "OK", [sampleStream]⟩
      ⟨200, "OK", [sampleChannel]⟩ sampleUser [] sampleStream [] rfl rfl rfl rfl).1)

/-- C6: when the user lookup returns a record, the stream lookup returns no
record, and the channel lookup returns a record, the Streamer has
`viewers = 0`, `isLive = false`, and `title` and `gameName` taken from the
channel metadata. -/
theorem getChannel_channel_fallback (name : String)
    (userResp : UpstreamResponse (List UserData))
    (streamResp : UpstreamResponse (List StreamData))
    (channelResp : UpstreamResponse (List ChannelData))
    (u : UserData) (us : List UserData) (c : ChannelData) (cs : List ChannelData)
    (hu : respOk userResp = true) (hub : userResp.body = u :: us)
    (hs : respOk streamResp = true) (hsb : streamResp.body = [])
    (hc : respOk channelResp = true) (hcb : channelResp.body = c :: cs) :
    getChannel name userResp streamResp channelResp =
      (Except.ok { channelId := u.id
                   displayName := u.display_name
                   loginName := u.login
                   profileImageUrl := u.profile_image_url
                   title := c.title
                   gameName := c.game_name
                   viewers := 0
                   isLive := false },
       [ChanEv.userFetch, ChanEv.streamFetch, ChanEv.channelFetch]) := by
  simp [getChannel, fetchUserData, fetchStreamData, fetchChannelData, hu, hub, hs, hsb, hc, hcb]

/-- Witness for C6: an offline user with channel metadata yields a Streamer
with `viewers = 0`, `isLive = false`, title from the channel metadata. -/
theorem getChannel_channel_fallback_witness :
    getChannel "alice" ⟨200, "OK", [sampleUser]⟩ ⟨200, "OK", []⟩
        ⟨200, "OK", [sampleChannel]⟩ =
      (Except.ok { channelId := "123"
                   displayName := "Alice"
                   loginName := "alice"
                   profileImageUrl := "http://img/alice.png"
                   title := "Chess from yesterday"
                   gameName := "Chess"
                   viewers := 0
                   isLive := false },
       [ChanEv.userFetch, ChanEv.streamFetch, ChanEv.channelFetch]) :=
  getChannel_channel_fallback "alice" ⟨200, "OK", [sampleUser]⟩ ⟨200, "OK", []⟩
    ⟨200, "OK", [sampleChannel]⟩ sampleUser [] sampleChannel [] rfl rfl rfl rfl rfl rfl

/-- C7: the handler fails with `NotFound` (`HTTPException(404, 'Channel not
found')`) both when the user lookup succeeds with zero records, and when the
user exists but neither a stream nor channel metadata is returned. -/
theorem getChannel_not_found (name : String)
    (userResp : UpstreamResponse (List UserData))
    (streamResp : UpstreamResponse (List StreamData))
    (channelResp : UpstreamResponse (List ChannelData)) :
    (respOk userResp = true → userResp.body = [] →
      (getChannel name userResp streamResp channelResp).1 =
        Except.error (ApiError.http 404 "Channel not found")) ∧
    (∀ (u : UserData) (us : List UserData),
      respOk userResp = true → userResp.body = u :: us →
      respOk streamResp = true → streamResp.body = [] →
      respOk channelResp = true → channelResp.body = [] →
      (getChannel name userResp streamResp channelResp).1 =
        Except.error (ApiError.http 404 "Channel not found")) := by
  constructor
  · intro hu hub
    simp [getChannel, fetchUserData, hu, hub]
  · intro u us hu hub hs hsb hc hcb
    simp [getChannel, fetchUserData, fetchStreamData, fetchChannelData, hu, hub, hs, hsb, hc, hcb]

/-- Witness for C7 at concrete inputs: a zero-record user lookup and an
absent stream together with absent channel metadata both yield the 404. -/
theorem getChannel_not_found_witness :
    (getChannel "ghost" ⟨200, "OK", []⟩ ⟨200, "OK", []⟩ ⟨200, "OK", []⟩).1 =
      Except.error (ApiError.http 404 "Channel not found") ∧
    (getChannel "alice" ⟨200, "OK", [sampleUser]⟩ ⟨200, "OK", []⟩ ⟨200, "OK", []⟩).1 =
      Except.error (ApiError.http 404 "Channel not found") := by
  constructor
  · exact (getChannel_not_found "ghost" ⟨200, "OK", []⟩ ⟨200, "OK", []⟩ ⟨200, "OK", []⟩).1 rfl rfl
  · exact (getChannel_not_found "alice" ⟨200, "OK", [sampleUser]⟩ ⟨200, "OK", []⟩
      ⟨200, "OK", []⟩).2 sampleUser [] rfl rfl rfl rfl rfl rfl

/-- Counterexample to C3 as stated: after caching a token at time 0 with a
reported TTL of 3600 s, a second call at t = 3 510 000 ms still leaves
90 000 ms = 90 s of remaining validity — NOT below the 60-second buffer — yet
the middleware issues an upstream refresh, because the 60 s buffer is
subtracted both when `tokenExpiryTime` is stored and in the cache check. -/
theorem middleware_refresh_threshold_counterexample :
    (Middleware.middlewareCall
        (Middleware.middlewareCall Middleware.initialCache 0 0 sampleMwResp).1
        3510000 3510000 sampleMwResp).2.refreshIssued = true ∧
    Middleware.EXPIRY_BUFFER ≤
      0 + min ((3600 : Int) * 1000) Middleware.MAX_CACHE_DURATION - 3510000 := by
  constructor
  · rfl
  · decide

/-- C3 amended: for a credential stored by a refresh at time `tIssue` with
reported TTL `data.expires_in` (capped at 24 h), a later call issues an
upstream refresh iff the remaining validity `tIssue + min(ttl*1000, 24h) -
t0` is at most TWICE the 60-second buffer (the buffer is deducted once when
the expiry is stored and once more in the check); otherwise the cached
credential is handed out unchanged with no upstream call.  A call on an
empty cache always issues a refresh. -/
theorem middleware_refresh_threshold (data : Middleware.TokenResponse) (tIssue t0 t1 : Int)
    (resp : UpstreamResponse Middleware.TokenResponse)
    (hne : tIssue + min ((data.expires_in : Int) * 1000) Middleware.MAX_CACHE_DURATION -
      Middleware.EXPIRY_BUFFER ≠ 0) :
    ((Middleware.middlewareCall (Middleware.storeToken data tIssue) t0 t1 resp).2.refreshIssued = true ↔
      tIssue + min ((data.expires_in : Int) * 1000) Middleware.MAX_CACHE_DURATION - t0 ≤
        2 * Middleware.EXPIRY_BUFFER) ∧
    (tIssue + min ((data.expires_in : Int) * 1000) Middleware.MAX_CACHE_DURATION - t0 >
        2 * Middleware.EXPIRY_BUFFER →
      Middleware.middlewareCall (Middleware.storeToken data tIssue) t0 t1 resp =
        (Middleware.storeToken data tIssue, ⟨some data, false, none⟩)) ∧
    (Middleware.middlewareCall Middleware.initialCache t0 t1 resp).2.refreshIssued = true := by
  have hhit : Middleware.cacheHit (Middleware.storeToken data tIssue) t0 =
      decide (2 * Middleware.EXPIRY_BUFFER <
        tIssue + min ((data.expires_in : Int) * 1000) Middleware.MAX_CACHE_DURATION - t0) := by
    simp only [Middleware.cacheHit, Middleware.storeToken, ne_eq, hne, not_false_eq_true,
      decide_True, Bool.true_and]
    exact decide_eq_decide.mpr ⟨fun h => by omega, fun h => by omega⟩
  refine ⟨⟨?_, ?_⟩, ?_, ?_⟩
  · intro hr
    by_contra hgt
    have hc : Middleware.cacheHit (Middleware.storeToken data tIssue) t0 = true := by
      rw [hhit]; exact decide_eq_true (by omega)
    simp only [Middleware.middlewareCall, hc, if_true] at hr
    simp at hr
  · intro hle
    have hc : Middleware.cacheHit (Middleware.storeToken data tIssue) t0 = false := by
      rw [hhit]; exact decide_eq_false (by omega)
    by_cases hok : respOk resp = true <;>
      simp [Middleware.middlewareCall, hc, hok]
  · intro hgt
    have hc : Middleware.cacheHit (Middleware.storeToken data tIssue) t0 = true := by
      rw [hhit]; exact decide_eq_true (by omega)
    simp only [Middleware.middlewareCall, hc]
    rfl
  · by_cases hok : respOk resp = true <;>
      simp [Middleware.middlewareCall, Middleware.cacheHit, Middleware.initialCache, hok]

/-- Witness for the amended C3 at concrete numbers: with TTL 3600 s issued at
0, a call at 3 480 000 ms (remaining validity exactly 120 s) refreshes, and a
call at 3 479 999 ms does not and returns the cache unchanged. -/
theorem middleware_refresh_threshold_witness :
    ((Middleware.middlewareCall (Middleware.storeToken sampleMwToken 0) 3480000 3480000
        sampleMwResp).2.refreshIssued = true) ∧
    Middleware.middlewareCall (Middleware.storeToken sampleMwToken 0) 3479999 3479999
        sampleMwResp =
      (Middleware.storeToken sampleMwToken 0, ⟨some sampleMwToken, false, none⟩) := by
  constructor
  · exact (middleware_refresh_threshold sampleMwToken 0 3480000 3480000 sampleMwResp
      (by decide)).1.mpr (by decide)
  · exact (middleware_refresh_threshold sampleMwToken 0 3479999 3479999 sampleMwResp
      (by decide)).2.1 (by decide)

/-- C2 fails on the code: from an empty cache, two concurrent requests that
both run the cache check before either token fetch resolves each issue their
own upstream refresh — after the two checks both requests are in flight
simultaneously and two upstream token requests have been issued, and neither
late caller reuses the other's in-flight result. -/
theorem middleware_two_refreshes_in_flight :
    Middleware.bothInFlight
        (Middleware.stepAct
          (Middleware.stepAct ⟨Middleware.initialCache, Middleware.Pc.idle, Middleware.Pc.idle, 0⟩
            (Middleware.Act.check true 0))
          (Middleware.Act.check false 0)) = true ∧
    (Middleware.stepAct
        (Middleware.stepAct ⟨Middleware.initialCache, Middleware.Pc.idle, Middleware.Pc.idle, 0⟩
          (Middleware.Act.check true 0))
        (Middleware.Act.check false 0)).refreshes = 2 := by
  constructor
  · rfl
  · rfl

/-- C8: every successful `searchStreams` result is sorted by descending
`viewers` (each earlier element has at least as many viewers as each later
one), and the concrete input with viewers 5, 50 and 0 comes out in the order
50, 5, 0. -/
theorem searchStreams_sorted_desc :
    (∀ (searchResp : UpstreamResponse (List SearchData))
        (streamOracle : String → UpstreamResponse (List StreamData))
        (l : List Streamer),
      searchStreams searchResp streamOracle = Except.ok l → l.Sorted viewersGe) ∧
    (searchStreams ⟨200, "OK", sampleSearchData⟩ sampleStreamOracle).map
        (fun l => l.map (·.viewers)) = Except.ok [50, 5, 0] := by
  constructor
  · intro searchResp streamOracle l h
    unfold searchStreams at h
    by_cases hok : respOk searchResp
    · simp only [hok, Bool.not_true, Bool.false_eq_true, if_neg, ite_false] at h
      cases hm : searchResp.body.mapM (searchJoin streamOracle) with
      | error e =>
        rw [hm] at h
        simp [Bind.bind, Except.bind] at h
      | ok streamers =>
        rw [hm] at h
        simp only [Bind.bind, Except.bind, pure, Except.pure, Except.ok.injEq] at h
        rw [← h]
        exact List.sorted_insertionSort viewersGe streamers
    · simp [hok] at h
  · rfl

/-- Witness for C8: applying the sortedness statement to the concrete search
input whose joined viewer counts are 5, 50 and 0. -/
theorem searchStreams_sorted_desc_witness :
    List.Sorted viewersGe
      [⟨"2", "Bob", "bob", "http://t/2", "title2", "Poker", 50, true⟩,
       ⟨"1", "Alice", "alice", "http://t/1", "title1", "Chess", 5, true⟩,
       ⟨"3", "Carol", "carol", "http://t/3", "", "Go", 0, true⟩] :=
  searchStreams_sorted_desc.1 ⟨200, "OK", sampleSearchData⟩ sampleStreamOracle _ rfl

/-- Helper: a single-round run whose followed-streams response is not a 401
issues exactly its one attempt and no refresh. -/
theorem run_single_non401 (u : String → UpstreamResponse (List UserData)) (now : Int)
    (aid : String) (st : List StoredAccount) (tk : String) (r : Round)
    (h : r.followedResp.status ≠ 401) :
    (fetchFollowedStreamsRun u now aid st tk [r]).2.1 = [Ev.attempt tk] := by
  by_cases hok : respOk r.followedResp = true
  · simp only [fetchFollowedStreamsRun, hok, if_true]
    cases followedFanOut r.followedResp.body u <;> rfl
  · have hok2 : respOk r.followedResp = false := by
      simpa using hok
    simp [fetchFollowedStreamsRun, hok2, h]

/-- Helper: unfolding one 401-with-successful-refresh step of the run. -/
theorem run_401_step (u : String → UpstreamResponse (List UserData)) (now : Int)
    (aid : String) (st : List StoredAccount) (tk : String) (r : Round) (rest : List Round)
    (account : StoredAccount) (rt : String)
    (h1 : r.followedResp.status = 401) (h1n : respOk r.followedResp = false)
    (hacc : findTwitchAccount st aid = some account)
    (hrt : account.refreshToken = some rt) (hne : rt ≠ "")
    (href : respOk r.refreshResp = true) :
    fetchFollowedStreamsRun u now aid st tk (r :: rest) =
      ((fetchFollowedStreamsRun u now aid (updateAccount st account.id r.refreshResp.body now)
          r.refreshResp.body.access_token rest).1,
       Ev.attempt tk :: Ev.refreshCall rt :: Ev.refreshOk r.refreshResp.body ::
         Ev.storeUpdate account.id r.refreshResp.body.access_token
           r.refreshResp.body.refresh_token
           (now + (r.refreshResp.body.expires_in : Int) * 1000) ::
         (fetchFollowedStreamsRun u now aid (updateAccount st account.id r.refreshResp.body now)
            r.refreshResp.body.access_token rest).2.1,
       (fetchFollowedStreamsRun u now aid (updateAccount st account.id r.refreshResp.body now)
          r.refreshResp.body.access_token rest).2.2) := by
  simp only [fetchFollowedStreamsRun, h1n, Bool.false_eq_true, if_false, h1, if_true,
    hacc, hrt, hne, refreshAccessToken, href, Bool.not_true, ite_false]

/-- Counterexample to C1 as stated: with a stored refresh token, a trace in
which the followed-streams call returns 401, the refresh succeeds, the
retried call returns 401 AGAIN and the second refresh also succeeds, the code
performs TWO refreshes and a second retry that succeeds — the second
`AuthorizationError` is retried again instead of propagating as
`UpstreamError` after a single refresh. -/
theorem fetchFollowedStreams_second_401_refreshes_again :
    (fetchFollowedStreamsRun sampleUserOracle 0 "acc1" [sampleAccount] "oldAccess"
        [round401 sampleTok1, round401 sampleTok2, roundOkEmpty]).1 =
      RunResult.success [] ∧
    refreshCount (fetchFollowedStreamsRun sampleUserOracle 0 "acc1" [sampleAccount] "oldAccess"
        [round401 sampleTok1, round401 sampleTok2, roundOkEmpty]).2.1 = 2 ∧
    attemptCount (fetchFollowedStreamsRun sampleUserOracle 0 "acc1" [sampleAccount] "oldAccess"
        [round401 sampleTok1, round401 sampleTok2, roundOkEmpty]).2.1 = 3 := by
  refine ⟨rfl, rfl, rfl⟩

/-- C1 amended: after a first `AuthorizationError` with a stored refresh
token and a successful refresh, the protocol performs exactly one refresh and
one retry when the retried call does not return 401; but when the retried
call returns 401 again and that refresh also succeeds, the code performs a
SECOND refresh and a further recursive retry instead of propagating
`UpstreamError`. -/
theorem fetchFollowedStreams_retry_counts
    (u : String → UpstreamResponse (List UserData)) (now : Int)
    (aid : String) (store : List StoredAccount) (tok : String)
    (r1 r2 : Round) (account : StoredAccount) (rt : String)
    (h1 : r1.followedResp.status = 401) (h1n : respOk r1.followedResp = false)
    (hacc : findTwitchAccount store aid = some account)
    (hrt : account.refreshToken = some rt) (hne : rt ≠ "")
    (href : respOk r1.refreshResp = true) :
    (r2.followedResp.status ≠ 401 →
      refreshCount (fetchFollowedStreamsRun u now aid store tok [r1, r2]).2.1 = 1 ∧
      attemptCount (fetchFollowedStreamsRun u now aid store tok [r1, r2]).2.1 = 2) ∧
    (r2.followedResp.status = 401 → respOk r2.followedResp = false →
      respOk r2.refreshResp = true → r1.refreshResp.body.refresh_token ≠ "" →
      refreshCount (fetchFollowedStreamsRun u now aid store tok [r1, r2]).2.1 = 2 ∧
      attemptCount (fetchFollowedStreamsRun u now aid store tok [r1, r2]).2.1 = 3) := by
  constructor
  · intro h2
    rw [run_401_step u now aid store tok r1 [r2] account rt h1 h1n hacc hrt hne href]
    rw [run_single_non401 u now aid _ _ r2 h2]
    constructor <;> rfl
  · intro h2 h2n href2 hne2
    rw [run_401_step u now aid store tok r1 [r2] account rt h1 h1n hacc hrt hne href]
    rw [run_401_step u now aid _ _ r2 []
      { account with accessToken := some r1.refreshResp.body.access_token
                     refreshToken := some r1.refreshResp.body.refresh_token
                     accessTokenExpiresAt :=
                       some (now + (r1.refreshResp.body.expires_in : Int) * 1000) }
      r1.refreshResp.body.refresh_token h2 h2n
      (findTwitchAccount_updateAccount store aid account r1.refreshResp.body now hacc)
      rfl hne2 href2]
    constructor <;> rfl

/-- Witness for the amended C1: one 401 followed by an ok response yields
exactly one refresh and one retry. -/
theorem fetchFollowedStreams_retry_counts_witness :
    refreshCount (fetchFollowedStreamsRun sampleUserOracle 0 "acc1" [sampleAccount] "oldAccess"
        [round401 sampleTok1, roundOkEmpty]).2.1 = 1 ∧
    attemptCount (fetchFollowedStreamsRun sampleUserOracle 0 "acc1" [sampleAccount] "oldAccess"
        [round401 sampleTok1, roundOkEmpty]).2.1 = 2 :=
  (fetchFollowedStreams_retry_counts sampleUserOracle 0 "acc1" [sampleAccount] "oldAccess"
    (round401 sampleTok1) roundOkEmpty sampleAccount "rt0" rfl rfl rfl rfl (by decide) rfl).1
    (by decide)

/-- Helper: every run's event trace begins with the attempt carrying the
access token the run was entered with. -/
theorem run_trace_head (u : String → UpstreamResponse (List UserData)) (now : Int)
    (aid : String) (st : List StoredAccount) (tk : String) (rds : List Round) :
    ∃ tl, (fetchFollowedStreamsRun u now aid st tk rds).2.1 = Ev.attempt tk :: tl := by
  cases rds with
  | nil => exact ⟨[], rfl⟩
  | cons r rest =>
    simp only [fetchFollowedStreamsRun]
    repeat' split
    all_goals exact ⟨_, rfl⟩

/-- C4: in every run, each successful user-credential refresh is immediately
followed by the single store update persisting that refresh's access token,
refresh token and expiry together, and only then by the retry carrying the
new access token. -/
theorem run_update_then_retry (u : String → UpstreamResponse (List UserData)) (now : Int)
    (aid : String) :
    ∀ (rds : List Round) (st : List StoredAccount) (tk : String),
      UpdateThenRetry now (fetchFollowedStreamsRun u now aid st tk rds).2.1 := by
  intro rds
  induction rds with
  | nil => intro st tk; trivial
  | cons r rest ih =>
    intro st tk
    by_cases hok : respOk r.followedResp = true
    · have htr : (fetchFollowedStreamsRun u now aid st tk (r :: rest)).2.1 = [Ev.attempt tk] := by
        simp only [fetchFollowedStreamsRun, hok, if_true]
        cases followedFanOut r.followedResp.body u <;> rfl
      rw [htr]; trivial
    · have hok2 : respOk r.followedResp = false := by simpa using hok
      by_cases h4 : r.followedResp.status = 401
      · cases hacc : findTwitchAccount st aid with
        | none =>
          have htr : (fetchFollowedStreamsRun u now aid st tk (r :: rest)).2.1 =
              [Ev.attempt tk] := by
            simp [fetchFollowedStreamsRun, hok2, h4, hacc]
          rw [htr]; trivial
        | some account =>
          cases hrt : account.refreshToken with
          | none =>
            have htr : (fetchFollowedStreamsRun u now aid st tk (r :: rest)).2.1 =
                [Ev.attempt tk] := by
              simp [fetchFollowedStreamsRun, hok2, h4, hacc, hrt]
            rw [htr]; trivial
          | some rt =>
            by_cases hemp : rt = ""
            · have htr : (fetchFollowedStreamsRun u now aid st tk (r :: rest)).2.1 =
                  [Ev.attempt tk] := by
                simp [fetchFollowedStreamsRun, hok2, h4, hacc, hrt, hemp]
              rw [htr]; trivial
            · by_cases href : respOk r.refreshResp = true
              · rw [run_401_step u now aid st tk r rest account rt h4 hok2 hacc hrt hemp href]
                obtain ⟨tl, htl⟩ := run_trace_head u now aid
                  (updateAccount st account.id r.refreshResp.body now)
                  r.refreshResp.body.access_token rest
                rw [htl]
                have h5 := ih (updateAccount st account.id r.refreshResp.body now)
                  r.refreshResp.body.access_token
                rw [htl] at h5
                exact ⟨rfl, rfl, rfl, rfl, h5⟩
              · have href2 : respOk r.refreshResp = false := by simpa using href
                have htr : (fetchFollowedStreamsRun u now aid st tk (r :: rest)).2.1 =
                    [Ev.attempt tk, Ev.refreshCall rt] := by
                  simp only [fetchFollowedStreamsRun, hok2, Bool.false_eq_true, if_false,
                    h4, if_true, hacc, hrt, hemp, refreshAccessToken, href2, Bool.not_false]
                  split
                  · rfl
                  · rename_i heq
                    split at heq <;> simp at heq
                rw [htr]; trivial
      · have htr : (fetchFollowedStreamsRun u now aid st tk (r :: rest)).2.1 =
            [Ev.attempt tk] := by
          simp [fetchFollowedStreamsRun, hok2, h4]
        rw [htr]; trivial

/-- Helper: joining one search result fails with the generic per-item 500
exactly when its stream lookup response is non-ok. -/
theorem searchJoin_error (streamOracle : String → UpstreamResponse (List StreamData))
    (s : SearchData) (h : respOk (streamOracle s.id) = false) :
    searchJoin streamOracle s =
      Except.error (ApiError.http 500 ("Failed to fetch Stream Data for " ++ s.id)) := by
  simp [searchJoin, fetchStreamData, h, Bind.bind, Except.bind]

/-- Helper: joining one search result succeeds when its stream lookup
response is ok. -/
theorem searchJoin_ok (streamOracle : String → UpstreamResponse (List StreamData))
    (s : SearchData) (h : respOk (streamOracle s.id) = true) :
    ∃ st, searchJoin streamOracle s = Except.ok st := by
  refine ⟨{ channelId := s.id
            loginName := s.broadcaster_login
            displayName := s.display_name
            profileImageUrl := s.thumbnail_url
            gameName := s.game_name
            viewers := jsOrNat (((streamOracle s.id).body.head?).map (fun sd => sd.viewer_count)) 0
            isLive := s.is_live
            title := jsOrStr (((streamOracle s.id).body.head?).map (fun sd => sd.title)) "" }, ?_⟩
  simp [searchJoin, fetchStreamData, h, Bind.bind, Except.bind, pure, Except.pure]

/-- Helper: if any search result's stream lookup is non-ok, the whole
`Promise.all` fan-out rejects with that generic per-item 500. -/
theorem searchFanOut_error (streamOracle : String → UpstreamResponse (List StreamData)) :
    ∀ (l : List SearchData), (∃ sd ∈ l, respOk (streamOracle sd.id) = false) →
      ∃ id, l.mapM (searchJoin streamOracle) =
        Except.error (ApiError.http 500 ("Failed to fetch Stream Data for " ++ id)) := by
  intro l
  induction l with
  | nil => rintro ⟨sd, hmem, _⟩; exact absurd hmem (List.not_mem_nil sd)
  | cons x xs ih =>
    rintro ⟨sd, hmem, hfail⟩
    by_cases hx : respOk (streamOracle x.id) = true
    · have hsd : sd ∈ xs := by
        rcases List.mem_cons.mp hmem with h | h
        · rw [h] at hfail; rw [hx] at hfail; cases hfail
        · exact h
      obtain ⟨id, hid⟩ := ih ⟨sd, hsd, hfail⟩
      obtain ⟨st, hst⟩ := searchJoin_ok streamOracle x hx
      refine ⟨id, ?_⟩
      rw [List.mapM_cons, hst, hid]
      rfl
    · have hx2 : respOk (streamOracle x.id) = false := by simpa using hx
      refine ⟨x.id, ?_⟩
      rw [List.mapM_cons, searchJoin_error streamOracle x hx2]
      rfl

/-- Helper: if some followed stream's user-profile lookup is non-ok (and
every ok lookup carries at least one record), the followed fan-out rejects
with the generic per-item 500. -/
theorem followedFanOut_error (u : String → UpstreamResponse (List UserData)) :
    ∀ (l : List FollowedStreamsData),
      (∃ s ∈ l, respOk (u s.user_login) = false) →
      (∀ s ∈ l, respOk (u s.user_login) = true → (u s.user_login).body ≠ []) →
      ∃ login, followedFanOut l u =
        Except.error (ApiError.http 500 ("Failed to fetch User Data for " ++ login)) := by
  intro l
  induction l with
  | nil => rintro ⟨s, hmem, _⟩; exact absurd hmem (List.not_mem_nil s)
  | cons x xs ih =>
    rintro ⟨s, hmem, hfail⟩ hne
    by_cases hx : respOk (u x.user_login) = true
    · have hs : s ∈ xs := by
        rcases List.mem_cons.mp hmem with h | h
        · rw [h] at hfail; rw [hx] at hfail; cases hfail
        · exact h
      obtain ⟨login, hl⟩ := ih ⟨s, hs, hfail⟩ (fun s hs2 => hne s (List.mem_cons_of_mem x hs2))
      have hxb := hne x (List.mem_cons_self x xs) hx
      refine ⟨login, ?_⟩
      unfold followedFanOut at hl ⊢
      rw [List.mapM_cons]
      cases hb : (u x.user_login).body with
      | nil => exact absurd hb hxb
      | cons ud uds =>
        have hjoin : fetchUserData x.user_login (u x.user_login) = Except.ok (some ud) := by
          simp [fetchUserData, hx, hb]
        rw [hjoin] at *
        simp only [Bind.bind, Except.bind] at hl ⊢
        rw [hl]
    · have hx2 : respOk (u x.user_login) = false := by simpa using hx
      refine ⟨x.user_login, ?_⟩
      unfold followedFanOut
      rw [List.mapM_cons]
      have hjoin : fetchUserData x.user_login (u x.user_login) =
          Except.error (ApiError.http 500 ("Failed to fetch User Data for " ++ x.user_login)) := by
        simp [fetchUserData, hx2]
      rw [hjoin]
      rfl

/-- C10: in both fan-outs, one failing per-item upstream fetch rejects the
whole aggregation with the generic per-item 500 and no partial Streamer list
is returned: a non-ok per-result stream lookup fails `searchStreams`
entirely, and a non-ok per-stream user-profile lookup (with every ok lookup
carrying a record) fails the followed-streams aggregation entirely. -/
theorem fanOut_all_or_nothing :
    (∀ (searchResp : UpstreamResponse (List SearchData))
        (streamOracle : String → UpstreamResponse (List StreamData)),
      respOk searchResp = true →
      (∃ sd ∈ searchResp.body, respOk (streamOracle sd.id) = false) →
      (∃ id, searchStreams searchResp streamOracle =
        Except.error (ApiError.http 500 ("Failed to fetch Stream Data for " ++ id))) ∧
      ∀ l, searchStreams searchResp streamOracle ≠ Except.ok l) ∧
    (∀ (u : String → UpstreamResponse (List UserData)) (now : Int) (aid : String)
        (st : List StoredAccount) (tk : String) (r : Round) (rest : List Round),
      respOk r.followedResp = true →
      (∃ s ∈ r.followedResp.body, respOk (u s.user_login) = false) →
      (∀ s ∈ r.followedResp.body, respOk (u s.user_login) = true →
        (u s.user_login).body ≠ []) →
      (∃ login, (fetchFollowedStreamsRun u now aid st tk (r :: rest)).1 =
        RunResult.failure (ApiError.http 500 ("Failed to fetch User Data for " ++ login))) ∧
      ∀ l, (fetchFollowedStreamsRun u now aid st tk (r :: rest)).1 ≠ RunResult.success l) := by
  constructor
  · intro searchResp streamOracle hok hfail
    obtain ⟨id, hid⟩ := searchFanOut_error streamOracle searchResp.body hfail
    have hres : searchStreams searchResp streamOracle =
        Except.error (ApiError.http 500 ("Failed to fetch Stream Data for " ++ id)) := by
      unfold searchStreams
      rw [hok]
      simp only [Bool.not_true, Bool.false_eq_true, if_false, ite_false, hid]
      rfl
    exact ⟨⟨id, hres⟩, fun l hl => by rw [hres] at hl; cases hl⟩
  · intro u now aid st tk r rest hok hfail hne
    obtain ⟨login, hl⟩ := followedFanOut_error u r.followedResp.body hfail hne
    have hres : (fetchFollowedStreamsRun u now aid st tk (r :: rest)).1 =
        RunResult.failure (ApiError.http 500 ("Failed to fetch User Data for " ++ login)) := by
      simp only [fetchFollowedStreamsRun, hok, if_true, hl]
    exact ⟨⟨login, hres⟩, fun l hll => by rw [hres] at hll; cases hll⟩

/-- Witness for C10: with the concrete failing oracles, neither aggregation
returns a (partial) Streamer list. -/
theorem fanOut_all_or_nothing_witness :
    searchStreams ⟨200, "OK", sampleSearchData⟩ failTwoStreamOracle ≠ Except.ok [] ∧
    (fetchFollowedStreamsRun failBobUserOracle 0 "acc1" [sampleAccount] "tok"
        [⟨⟨200, "OK", [mkFollowed "alice", mkFollowed "bob"]⟩, ⟨200, "OK", sampleTok1⟩⟩]).1 ≠
      RunResult.success [] := by
  constructor
  · exact (fanOut_all_or_nothing.1 ⟨200, "OK", sampleSearchData⟩ failTwoStreamOracle rfl
      (by decide)).2 []
  · exact (fanOut_all_or_nothing.2 failBobUserOracle 0 "acc1" [sampleAccount] "tok"
      ⟨⟨200, "OK", [mkFollowed "alice", mkFollowed "bob"]⟩, ⟨200, "OK", sampleTok1⟩⟩ [] rfl
      (by decide) (by decide)).2 []
